import Mathlib

/-!
# unified-login: bearer-token middleware and scope guards

A shallow embedding of `middleware.go`, and of the handler and chain of `example/basic.go`.

* Go strings are represented by Lean strings (the valid UTF-8 ones); the two string
  functions the middleware calls, `strings.HasPrefix` and `strings.Split`, are given on the
  character lists, which agrees with the byte-level Go functions for the ASCII arguments
  `"Bearer"` and `" "` used by the source.
* A middleware body either calls `next.ServeHTTP(w, r)` as its last action, returns without
  calling it, or panics.  The result of one run of a body is therefore an `Action`.
* The third-party functions the middleware calls (`jwt.Parse`, `MapClaims.GetSubject`,
  `uuid.Parse`, the `%v` formatter) are not part of the repository; they are the fields of
  `Lib`, a parameter of `CheckJWT`.
* What is assumed of `jwt.Parse` beyond its type is stated as a hypothesis where it is
  used: `Lib.parsesMapClaims` and `Lib.parsesTo`.
* `fmt.Printf("User: %#v", user)` writes to standard output only and is left out.
-/

namespace UnifiedLogin

/-! ## Go values -/

/-- A value of `uuid.UUID`, the sixteen octets of the identifier. -/
structure UUID where
  bytes : List Nat
  deriving DecidableEq, Repr

/-- Dynamic values of type `interface{}` as produced by decoding a token segment. -/
inductive GoVal where
  | nil
  | bool (b : Bool)
  | float64 (bits : Nat)
  | str (s : String)
  | slice (xs : List GoVal)
  | map (kvs : List (String × GoVal))
  | other (typeName : String)

/-- Name of the dynamic type of a value, as it appears in an interface-conversion panic. -/
def GoVal.typeName : GoVal → String
  | .nil => "nil"
  | .bool _ => "bool"
  | .float64 _ => "float64"
  | .str _ => "string"
  | .slice _ => "[]interface {}"
  | .map _ => "map[string]interface {}"
  | .other n => n

/-- Indexing a `map[string]interface{}`: a missing key gives the nil interface. -/
def mapIndex (m : List (String × GoVal)) (key : String) : GoVal :=
  (m.lookup key).getD .nil

/-! ## Data model of `middleware.go` -/

/-- The key used by the middleware to store the user information. -/
def UserKey : String := "THDS_UNIFIED_LOGIN_USER_ID"

structure UserInformation where
  Scopes : List String
  UserId : UUID
  deriving DecidableEq, Repr

structure UnifiedLoginMiddleware where
  secret : String
  deriving DecidableEq, Repr

def NewMiddleware (appSecret : String) : UnifiedLoginMiddleware :=
  { secret := appSecret }

/-- A value of type `any` stored in a request context: the nil interface, a
`UserInformation` value, a `*UserInformation` pointer (to a value, or the nil pointer), or
a value of some other dynamic type. -/
inductive CtxVal where
  | nil
  | userInformation (user : UserInformation)
  | userInformationPtr (target : Option UserInformation)
  | other (typeName : String)
  deriving DecidableEq, Repr

/-- The part of `*http.Request` the middleware reads: the header map and the context,
the latter as the chain of `context.WithValue` bindings, innermost first. -/
structure Request where
  Header : List (String × List String)
  ctx : List (String × CtxVal)
  deriving DecidableEq, Repr

/-- `r.Header.Get(key)`: the first value stored under the key, or the empty string. -/
def Request.headerGet (r : Request) (key : String) : String :=
  match r.Header.lookup key with
  | some (v :: _) => v
  | _ => ""

/-- `r.Context().Value(key)`: the innermost binding of the key, or nil. -/
def Request.ctxValue (r : Request) (key : String) : CtxVal :=
  (r.ctx.lookup key).getD .nil

/-- `setUserInContext`: a clone of the request whose context binds `UserKey` to `user`. -/
def setUserInContext (r : Request) (user : CtxVal) : Request :=
  { r with ctx := (UserKey, user) :: r.ctx }

/-- The state of an `http.ResponseWriter`: header entries in the order they were added,
the status code once the header has been written, and the body written so far. -/
structure ResponseWriter where
  header : List (String × String)
  status : Option Nat
  body : String
  deriving DecidableEq, Repr

/-- A response writer nothing has been written to. -/
def ResponseWriter.fresh : ResponseWriter :=
  { header := [], status := none, body := "" }

/-- `w.Header().Add(key, value)`. -/
def ResponseWriter.headerAdd (w : ResponseWriter) (key value : String) : ResponseWriter :=
  { w with header := w.header ++ [(key, value)] }

/-- `w.WriteHeader(code)`: only the first call sets the status. -/
def ResponseWriter.writeHeader (w : ResponseWriter) (code : Nat) : ResponseWriter :=
  match w.status with
  | some _ => w
  | none => { w with status := some code }

/-- `w.Write(b)`: writes the header with status 200 if none was written, then the bytes. -/
def ResponseWriter.write (w : ResponseWriter) (b : String) : ResponseWriter :=
  let w1 := w.writeHeader 200
  { w1 with body := w1.body ++ b }

/-- Why a run of a middleware body panicked. -/
inductive PanicReason where
  | interfaceConversion (dynType : String)
  | uuidMustParse (s : String)
  deriving DecidableEq, Repr

/-- What one run of a middleware body does. -/
inductive Action where
  | callNext (w : ResponseWriter) (r : Request)
  | done (w : ResponseWriter)
  | panic (reason : PanicReason)
  deriving DecidableEq, Repr

/-- An `http.Handler`: the response writer after serving, or a panic. -/
abbrev Handler := ResponseWriter → Request → Except PanicReason ResponseWriter

/-- Completes a run of a middleware body with the handler it wraps. -/
def Action.run (next : Handler) : Action → Except PanicReason ResponseWriter
  | .callNext w r => next w r
  | .done w => .ok w
  | .panic p => .error p

/-- The handler `mw(next)` for a middleware whose body is `body`. -/
def serve (body : ResponseWriter → Request → Action) (next : Handler) : Handler :=
  fun w r => (body w r).run next

/-! ## The string functions used on the header -/

/-- `strings.HasPrefix(s, pre)`. -/
def stringsHasPrefix (s pre : String) : Bool :=
  pre.data.isPrefixOf s.data

/-- Splitting a character list at every occurrence of a separator character. -/
def splitChars (sep : Char) : List Char → List (List Char)
  | [] => [[]]
  | c :: cs =>
    if c = sep then [] :: splitChars sep cs
    else
      match splitChars sep cs with
      | [] => [[c]]
      | p :: ps => (c :: p) :: ps

/-- `strings.Split(s, sep)` for a one-character separator. -/
def stringsSplit (s : String) (sep : Char) : List String :=
  (splitChars sep s.data).map String.mk

/-! ## The JWT and UUID libraries -/

/-- The signing-method families of the JWT library (the dynamic type of `token.Method`). -/
inductive SigningMethod where
  | hmac (alg : String)
  | rsa (alg : String)
  | rsapss (alg : String)
  | ecdsa (alg : String)
  | ed25519
  | none
  | custom (alg : String)
  deriving DecidableEq, Repr

/-- The dynamic type of `token.Claims`. -/
inductive Claims where
  | mapClaims (m : List (String × GoVal))
  | other

/-- The fields of `jwt.Token` the middleware reads. -/
structure Token where
  Method : SigningMethod
  Header : List (String × GoVal)
  Claims : Claims

/-- The key function handed to `jwt.Parse`. -/
abbrev Keyfunc := Token → Except String ByteArray

/-- The third-party functions `CheckJWT` calls.
* `jwtParse tokenString keyFunc` is `jwt.Parse`: the verified token, or an error;
* `getSubject claims` is `MapClaims.GetSubject`;
* `uuidParse s` is `uuid.Parse` (`uuid.MustParse` panics where it fails);
* `sprintV v` is the `%v` rendering of a value. -/
structure Lib where
  jwtParse : String → Keyfunc → Except String Token
  getSubject : List (String × GoVal) → Except String String
  uuidParse : String → Option UUID
  sprintV : GoVal → String

/-! ## `CheckJWT` -/

/-- The function literal passed to `jwt.Parse`: the secret for an HMAC token, an error
for every other signing method. -/
def keyfunc (lib : Lib) (m : UnifiedLoginMiddleware) : Keyfunc := fun token =>
  match token.Method with
  | .hmac _ => .ok m.secret.toUTF8
  | _ => .error ("Unexpected signing method: " ++ lib.sprintV (mapIndex token.Header "alg"))

/-- The loop `for _, v := range scopes { scopesStr = append(scopesStr, v.(string)) }`. -/
def convertScopes : List GoVal → List String → Except PanicReason (List String)
  | [], scopesStr => .ok scopesStr
  | .str s :: vs, scopesStr => convertScopes vs (scopesStr ++ [s])
  | v :: _, _ => .error (.interfaceConversion v.typeName)

/-- The scope list built from `claims["scopes"]`. -/
def scopesOfClaims (claims : List (String × GoVal)) : Except PanicReason (List String) :=
  match mapIndex claims "scopes" with
  | .slice scopes => convertScopes scopes []
  | _ => .ok []

/-- The body of the handler returned by `CheckJWT(next)`. -/
def CheckJWT (lib : Lib) (m : UnifiedLoginMiddleware) (w : ResponseWriter) (r : Request) :
    Action :=
  let auth_header := r.headerGet "Authorization"
  if auth_header = "" then
    .callNext w (setUserInContext r .nil)
  else if !stringsHasPrefix auth_header "Bearer" then
    .callNext w (setUserInContext r .nil)
  else
    let parts := stringsSplit auth_header ' '
    if parts.length ≠ 2 then
      .callNext w (setUserInContext r .nil)
    else
      match lib.jwtParse (parts.getD 1 "") (keyfunc lib m) with
      | .error _ => .callNext w (setUserInContext r .nil)
      | .ok token =>
        match token.Claims with
        | .mapClaims claims =>
          match lib.getSubject claims with
          | .error _ => .callNext w (setUserInContext r .nil)
          | .ok userId =>
            match scopesOfClaims claims with
            | .error p => .panic p
            | .ok scopesStr =>
              match lib.uuidParse userId with
              | none => .panic (.uuidMustParse userId)
              | some uid =>
                .callNext w (setUserInContext r
                  (.userInformation { UserId := uid, Scopes := scopesStr }))
        | .other => .callNext w r

/-- The header value passes the three tests at the head of `CheckJWT`, and `tok` is the
part handed to `jwt.Parse`. -/
def extractsToken (auth_header tok : String) : Prop :=
  auth_header ≠ "" ∧ stringsHasPrefix auth_header "Bearer" = true ∧
    (stringsSplit auth_header ' ').length = 2 ∧ (stringsSplit auth_header ' ').getD 1 "" = tok

instance (auth_header tok : String) : Decidable (extractsToken auth_header tok) :=
  inferInstanceAs (Decidable (_ ∧ _))

/-! ## The guards -/

/-- The three writes of a guard that rejects a request. -/
def reject (w : ResponseWriter) (code : Nat) (msg : String) : ResponseWriter :=
  ((w.headerAdd "Content-Type" "plain/text").writeHeader code).write msg

/-- The body of the handler returned by `MustBeAuthenticated(next)`. -/
def MustBeAuthenticated (w : ResponseWriter) (r : Request) : Action :=
  match r.ctxValue UserKey with
  | .nil => .done (reject w 401 "Token not provided or invalid")
  | _ => .callNext w r

/-- The inner loop of both scope guards: is `s` equal to one of the user scopes. -/
def scopeFound (s : String) : List String → Bool
  | [] => false
  | uS :: rest => if s = uS then true else scopeFound s rest

/-- The outer loop of `MustHaveAnyScope`: true when the loop reaches the call of `next`. -/
def anyScopeLoop (userScopes : List String) : List String → Bool
  | [] => false
  | s :: rest => if scopeFound s userScopes then true else anyScopeLoop userScopes rest

/-- The body of the handler returned by `MustHaveAnyScope(next, scopes)`. -/
def MustHaveAnyScope (scopes : List String) (w : ResponseWriter) (r : Request) : Action :=
  match r.ctxValue UserKey with
  | .userInformation user =>
    if anyScopeLoop user.Scopes scopes then .callNext w r
    else .done (reject w 403 "Forbidden")
  | _ => .done (reject w 401 "Token not provided or invalid")

/-- The outer loop of `MustHaveAllScopes`: false when it returns early with the 403. -/
def allScopesLoop (userScopes : List String) : List String → Bool
  | [] => true
  | s :: rest => if !scopeFound s userScopes then false else allScopesLoop userScopes rest

/-- The body of the handler returned by `MustHaveAllScopes(next, scopes)`. -/
def MustHaveAllScopes (scopes : List String) (w : ResponseWriter) (r : Request) : Action :=
  match r.ctxValue UserKey with
  | .userInformation user =>
    if allScopesLoop user.Scopes scopes then .callNext w r
    else .done (reject w 403 "Forbidden")
  | _ => .done (reject w 401 "Token not provided or invalid")

/-! ## The handler of `example/basic.go` -/

/-- The `handler` of `example/basic.go`: it asserts the context value to the pointer type
`*UserInformation`, returns at once when the assertion fails, and otherwise writes the JSON
encoding of the pointer. `jsonMarshal` is `json.Marshal` on such a pointer. -/
def handler (jsonMarshal : Option UserInformation → String) : Handler :=
  fun w r =>
    match r.ctxValue UserKey with
    | .userInformationPtr userInfo => .ok (w.write (jsonMarshal userInfo))
    | _ => .ok w

/-- The chain `m.CheckJWT(m.MustBeAuthenticated(handler))` served by `main`. -/
def mainChain (lib : Lib) (m : UnifiedLoginMiddleware)
    (jsonMarshal : Option UserInformation → String) : Handler :=
  serve (CheckJWT lib m) (serve MustBeAuthenticated (handler jsonMarshal))

/-! ## Notions used to state the properties -/

/-- Two scope lists hold the same strings, in whatever order and however often. -/
def sameScopes (a b : List String) : Prop :=
  ∀ x, x ∈ a ↔ x ∈ b

/-- The verifier accepts a token only with a claim map, as `jwt.Parse` does (it decodes the
claims into a `MapClaims`). -/
def Lib.parsesMapClaims (lib : Lib) : Prop :=
  ∀ tokenString keyFunc token, lib.jwtParse tokenString keyFunc = .ok token →
    ∃ claims, token.Claims = .mapClaims claims

/-- The parsed form of `tokenString` is `token`: that is the token `jwt.Parse` hands to the
key function, and `jwt.Parse` fails whenever the key function returns an error for it. -/
def Lib.parsesTo (lib : Lib) (tokenString : String) (token : Token) : Prop :=
  ∀ (keyFunc : Keyfunc) (e : String), keyFunc token = .error e →
    ∃ e2, lib.jwtParse tokenString keyFunc = .error e2

/-! ## A sample library instance

Used to evaluate the middleware on concrete requests: tokens are looked up in a table of
issued tokens, each with the secret it was signed with. -/

/-- Value of a hexadecimal digit. -/
def hexVal (c : Char) : Option Nat :=
  if c.isDigit then some (c.toNat - 48)
  else if 97 ≤ c.toNat ∧ c.toNat ≤ 102 then some (c.toNat - 87)
  else if 65 ≤ c.toNat ∧ c.toNat ≤ 70 then some (c.toNat - 55)
  else none

/-- Octets of a string of hexadecimal digit pairs. -/
def hexBytes : List Char → Option (List Nat)
  | [] => some []
  | [_] => none
  | a :: b :: rest =>
    match hexVal a, hexVal b, hexBytes rest with
    | some x, some y, some bs => some ((16 * x + y) :: bs)
    | _, _, _ => none

/-- Parses the canonical form `xxxxxxxx-xxxx-xxxx-xxxx-xxxxxxxxxxxx`. -/
def sampleUuidParse (s : String) : Option UUID :=
  match splitChars '-' s.data with
  | [a, b, c, d, e] =>
    if a.length = 8 ∧ b.length = 4 ∧ c.length = 4 ∧ d.length = 4 ∧ e.length = 12 then
      (hexBytes (a ++ b ++ c ++ d ++ e)).map UUID.mk
    else none
  | _ => none

/-- Reads the `sub` claim: empty when missing, an error when it is not a string. -/
def sampleGetSubject (claims : List (String × GoVal)) : Except String String :=
  match claims.lookup "sub" with
  | none => .ok ""
  | some (.str s) => .ok s
  | some _ => .error "sub is invalid"

/-- A token verifier over a table of issued tokens: a token string is accepted when it is
in the table, the key function yields a key, and that key is the secret the token was
signed with. -/
def sampleJwtParse (issued : List (String × String × Token)) (tokenString : String)
    (keyFunc : Keyfunc) : Except String Token :=
  match issued.lookup tokenString with
  | none => .error "token is malformed"
  | some (signedWith, token) =>
    match keyFunc token with
    | .error e => .error ("token is unverifiable: " ++ e)
    | .ok key =>
      if key.data.toList = signedWith.toUTF8.data.toList then .ok token
      else .error "token signature is invalid"

/-- Rendering of a value, as far as the samples need it. -/
def sampleSprintV : GoVal → String
  | .str s => s
  | .nil => "<nil>"
  | v => v.typeName

/-- The sample library over a table of issued tokens. -/
def sampleLib (issued : List (String × String × Token)) : Lib :=
  { jwtParse := sampleJwtParse issued
    getSubject := sampleGetSubject
    uuidParse := sampleUuidParse
    sprintV := sampleSprintV }

/-- A request with the given `Authorization` header value and an empty context. -/
def requestWithAuthorization (value : String) : Request :=
  { Header := [("Authorization", [value])], ctx := [] }

/-- A request without headers whose context binds `UserKey` to the given value. -/
def requestWithUser (user : CtxVal) : Request :=
  setUserInContext { Header := [], ctx := [] } user

/-- An HS256 token with the given claims. -/
def hs256Token (claims : List (String × GoVal)) : Token :=
  { Method := .hmac "HS256"
    Header := [("alg", .str "HS256"), ("typ", .str "JWT")]
    Claims := .mapClaims claims }

/-- Sample tokens: signed with the configured secret or with another one, with good and
bad claims. -/
def sampleIssued : List (String × String × Token) :=
  [ ("valid", "test_secret", hs256Token
      [("sub", .str "951f48de-cf08-ec11-945d-005056a2678b"),
       ("scopes", .slice [.str "read", .str "write"])]),
    ("wrong", "wrong_secret", hs256Token
      [("sub", .str "951f48de-cf08-ec11-945d-005056a2678b"),
       ("scopes", .slice [.str "read"])]),
    ("noscopes", "test_secret", hs256Token
      [("sub", .str "951f48de-cf08-ec11-945d-005056a2678b")]),
    ("badsub", "test_secret", hs256Token
      [("sub", .str "not-a-uuid"), ("scopes", .slice [.str "read"])]),
    ("nosub", "test_secret", hs256Token
      [("scopes", .slice [.str "read"])]),
    ("numsub", "test_secret", hs256Token
      [("sub", .float64 0), ("scopes", .slice [.str "read"])]),
    ("mixed", "test_secret", hs256Token
      [("sub", .str "951f48de-cf08-ec11-945d-005056a2678b"),
       ("scopes", .slice [.str "read", .float64 1, .str "write"])]) ]

/-- An RS256 token with the given claims. -/
def rs256Token (claims : List (String × GoVal)) : Token :=
  { Method := .rsa "RS256"
    Header := [("alg", .str "RS256"), ("typ", .str "JWT")]
    Claims := .mapClaims claims }

/-- More sample tokens: one of the RSA family, and three whose `scopes` claim is not a
list. -/
def sampleIssuedMore : List (String × String × Token) :=
  [ ("rs256", "test_secret", rs256Token
      [("sub", .str "951f48de-cf08-ec11-945d-005056a2678b"),
       ("scopes", .slice [.str "read"])]),
    ("strscopes", "test_secret", hs256Token
      [("sub", .str "951f48de-cf08-ec11-945d-005056a2678b"),
       ("scopes", .str "read write")]),
    ("numscopes", "test_secret", hs256Token
      [("sub", .str "951f48de-cf08-ec11-945d-005056a2678b"),
       ("scopes", .float64 7)]),
    ("objscopes", "test_secret", hs256Token
      [("sub", .str "951f48de-cf08-ec11-945d-005056a2678b"),
       ("scopes", .map [("read", .bool true)])]) ]

/-- The identifier denoted by the sample subject. -/
def sampleUserId : UUID :=
  { bytes := [149, 31, 72, 222, 207, 8, 236, 17, 148, 93, 0, 80, 86, 162, 103, 139] }

/-! ## Lemmas on the context, the response writer and the scope loops -/

theorem ctxValue_setUserInContext (r : Request) (user : CtxVal) :
    (setUserInContext r user).ctxValue UserKey = user := by
  simp [setUserInContext, Request.ctxValue, List.lookup]

theorem headerGet_setUserInContext (r : Request) (user : CtxVal) (key : String) :
    (setUserInContext r user).headerGet key = r.headerGet key := rfl

theorem reject_status (w : ResponseWriter) (code : Nat) (msg : String)
    (hw : w.status = none) : (reject w code msg).status = some code := by
  simp [reject, ResponseWriter.write, ResponseWriter.writeHeader,
    ResponseWriter.headerAdd, hw]

theorem reject_body (w : ResponseWriter) (code : Nat) (msg : String) :
    (reject w code msg).body = w.body ++ msg := by
  cases hs : w.status <;>
    simp [reject, ResponseWriter.write, ResponseWriter.writeHeader,
      ResponseWriter.headerAdd, hs]

theorem reject_header (w : ResponseWriter) (code : Nat) (msg : String) :
    (reject w code msg).header = w.header ++ [("Content-Type", "plain/text")] := by
  cases hs : w.status <;>
    simp [reject, ResponseWriter.write, ResponseWriter.writeHeader,
      ResponseWriter.headerAdd, hs]

theorem scopeFound_iff (s : String) (userScopes : List String) :
    scopeFound s userScopes = true ↔ s ∈ userScopes := by
  induction userScopes with
  | nil => simp [scopeFound]
  | cons uS rest ih =>
    by_cases h : s = uS
    · simp [scopeFound, h]
    · simp [scopeFound, h, ih]

theorem anyScopeLoop_iff (userScopes scopes : List String) :
    anyScopeLoop userScopes scopes = true ↔ ∃ s ∈ scopes, s ∈ userScopes := by
  induction scopes with
  | nil => simp [anyScopeLoop]
  | cons s rest ih =>
    by_cases h : scopeFound s userScopes = true
    · have hs : s ∈ userScopes := (scopeFound_iff s userScopes).1 h
      simp [anyScopeLoop, h, hs]
    · have hs : s ∉ userScopes := fun hm => h ((scopeFound_iff s userScopes).2 hm)
      simp [anyScopeLoop, h, ih, hs]

theorem allScopesLoop_iff (userScopes scopes : List String) :
    allScopesLoop userScopes scopes = true ↔ ∀ s ∈ scopes, s ∈ userScopes := by
  induction scopes with
  | nil => simp [allScopesLoop]
  | cons s rest ih =>
    by_cases h : scopeFound s userScopes = true
    · have hs : s ∈ userScopes := (scopeFound_iff s userScopes).1 h
      simp [allScopesLoop, h, ih, hs]
    · have hs : s ∉ userScopes := fun hm => h ((scopeFound_iff s userScopes).2 hm)
      simp [allScopesLoop, h, hs]

/-! ## The scope guards on an authenticated request -/

/-- C1: on a request whose context holds a `UserInformation` `u` under `UserKey`,
`MustHaveAnyScope(next, required)` calls `next` with the writer and request unchanged exactly
when some string of `required` equals some string of `u.Scopes`; otherwise it returns without
calling `next` after its three writes, which on a writer with no status yet give status 403
and append the body `Forbidden`. -/
theorem mustHaveAnyScope_authenticated (required : List String) (w : ResponseWriter)
    (r : Request) (u : UserInformation) (hu : r.ctxValue UserKey = .userInformation u) :
    (MustHaveAnyScope required w r = .callNext w r ↔
        ∃ s ∈ required, ∃ uS ∈ u.Scopes, s = uS) ∧
      ((¬ ∃ s ∈ required, ∃ uS ∈ u.Scopes, s = uS) →
        MustHaveAnyScope required w r = .done (reject w 403 "Forbidden") ∧
        (reject w 403 "Forbidden").body = w.body ++ "Forbidden" ∧
        (w.status = none → (reject w 403 "Forbidden").status = some 403)) := by
  have hiff : anyScopeLoop u.Scopes required = true ↔
      ∃ s ∈ required, ∃ uS ∈ u.Scopes, s = uS := by
    rw [anyScopeLoop_iff]
    constructor
    · rintro ⟨s, hs, hm⟩
      exact ⟨s, hs, s, hm, rfl⟩
    · rintro ⟨s, hs, uS, hm, rfl⟩
      exact ⟨s, hs, hm⟩
  by_cases h : anyScopeLoop u.Scopes required = true
  · have hex := hiff.1 h
    refine ⟨⟨fun _ => hex, fun _ => ?_⟩, fun hn => absurd hex hn⟩
    simp [MustHaveAnyScope, hu, h]
  · have hex : ¬ ∃ s ∈ required, ∃ uS ∈ u.Scopes, s = uS := fun hx => h (hiff.2 hx)
    have hrun : MustHaveAnyScope required w r = .done (reject w 403 "Forbidden") := by
      simp [MustHaveAnyScope, hu, h]
    refine ⟨⟨fun hc => ?_, fun hx => absurd hx hex⟩, fun _ =>
      ⟨hrun, reject_body w 403 "Forbidden", reject_status w 403 "Forbidden"⟩⟩
    rw [hrun] at hc
    cases hc

/-- Witness of C1: with the required list `x`, the identity with scopes `x`, `y` is
forwarded and the identity with scopes `y`, `z` gets the 403 response. -/
theorem mustHaveAnyScope_authenticated_witness :
    MustHaveAnyScope ["x"] .fresh
        (requestWithUser (.userInformation ⟨["x", "y"], sampleUserId⟩))
        = .callNext .fresh (requestWithUser (.userInformation ⟨["x", "y"], sampleUserId⟩)) ∧
      MustHaveAnyScope ["x"] .fresh
        (requestWithUser (.userInformation ⟨["y", "z"], sampleUserId⟩))
        = .done (reject .fresh 403 "Forbidden") ∧
      (reject .fresh 403 "Forbidden").body = "Forbidden" ∧
      (reject .fresh 403 "Forbidden").status = some 403 :=
  have hy := (mustHaveAnyScope_authenticated ["x"] .fresh
    (requestWithUser (.userInformation ⟨["y", "z"], sampleUserId⟩))
    ⟨["y", "z"], sampleUserId⟩ (by decide)).2 (by decide)
  ⟨(mustHaveAnyScope_authenticated ["x"] .fresh
      (requestWithUser (.userInformation ⟨["x", "y"], sampleUserId⟩))
      ⟨["x", "y"], sampleUserId⟩ (by decide)).1.2 (by decide),
   hy.1, hy.2.1, hy.2.2 rfl⟩

/-- C2: on a request whose context holds a `UserInformation` `u` under `UserKey`,
`MustHaveAllScopes(next, required)` calls `next` with the writer and request unchanged
exactly when every string of `required` occurs in `u.Scopes`; otherwise it returns without
calling `next` after its three writes, which on a writer with no status yet give status 403
and append the body `Forbidden`. -/
theorem mustHaveAllScopes_authenticated (required : List String) (w : ResponseWriter)
    (r : Request) (u : UserInformation) (hu : r.ctxValue UserKey = .userInformation u) :
    (MustHaveAllScopes required w r = .callNext w r ↔ ∀ s ∈ required, s ∈ u.Scopes) ∧
      ((¬ ∀ s ∈ required, s ∈ u.Scopes) →
        MustHaveAllScopes required w r = .done (reject w 403 "Forbidden") ∧
        (reject w 403 "Forbidden").body = w.body ++ "Forbidden" ∧
        (w.status = none → (reject w 403 "Forbidden").status = some 403)) := by
  have hiff := allScopesLoop_iff u.Scopes required
  by_cases h : allScopesLoop u.Scopes required = true
  · have hall := hiff.1 h
    refine ⟨⟨fun _ => hall, fun _ => ?_⟩, fun hn => absurd hall hn⟩
    simp [MustHaveAllScopes, hu, h]
  · have hall : ¬ ∀ s ∈ required, s ∈ u.Scopes := fun hx => h (hiff.2 hx)
    have hrun : MustHaveAllScopes required w r = .done (reject w 403 "Forbidden") := by
      simp [MustHaveAllScopes, hu, h]
    refine ⟨⟨fun hc => ?_, fun hx => absurd hx hall⟩, fun _ =>
      ⟨hrun, reject_body w 403 "Forbidden", reject_status w 403 "Forbidden"⟩⟩
    rw [hrun] at hc
    cases hc

/-- Witness of C2: with the required list `x`, `y`, the identity with scopes `x`, `y`, `z`
is forwarded and the identity with the single scope `x` gets the 403 response. -/
theorem mustHaveAllScopes_authenticated_witness :
    MustHaveAllScopes ["x", "y"] .fresh
        (requestWithUser (.userInformation ⟨["x", "y", "z"], sampleUserId⟩))
        = .callNext .fresh
          (requestWithUser (.userInformation ⟨["x", "y", "z"], sampleUserId⟩)) ∧
      MustHaveAllScopes ["x", "y"] .fresh
        (requestWithUser (.userInformation ⟨["x"], sampleUserId⟩))
        = .done (reject .fresh 403 "Forbidden") ∧
      (reject .fresh 403 "Forbidden").body = "Forbidden" ∧
      (reject .fresh 403 "Forbidden").status = some 403 :=
  have hx := (mustHaveAllScopes_authenticated ["x", "y"] .fresh
    (requestWithUser (.userInformation ⟨["x"], sampleUserId⟩))
    ⟨["x"], sampleUserId⟩ (by decide)).2 (by decide)
  ⟨(mustHaveAllScopes_authenticated ["x", "y"] .fresh
      (requestWithUser (.userInformation ⟨["x", "y", "z"], sampleUserId⟩))
      ⟨["x", "y", "z"], sampleUserId⟩ (by decide)).1.2 (by decide),
   hx.1, hx.2.1, hx.2.2 rfl⟩

/-! ## The guards on a request without identity -/

/-- C3: on a request whose context value under `UserKey` is nil, `MustBeAuthenticated`,
`MustHaveAnyScope(required)` and `MustHaveAllScopes(required)`, for every `required`, return
without calling `next` after their three writes, which on a writer with no status yet give
status 401 and append the body `Token not provided or invalid`. -/
theorem guards_unauthenticated (required : List String) (w : ResponseWriter) (r : Request)
    (hu : r.ctxValue UserKey = .nil) :
    MustBeAuthenticated w r = .done (reject w 401 "Token not provided or invalid") ∧
      MustHaveAnyScope required w r = .done (reject w 401 "Token not provided or invalid") ∧
      MustHaveAllScopes required w r = .done (reject w 401 "Token not provided or invalid") ∧
      (reject w 401 "Token not provided or invalid").body
        = w.body ++ "Token not provided or invalid" ∧
      (w.status = none → (reject w 401 "Token not provided or invalid").status = some 401) := by
  refine ⟨?_, ?_, ?_, reject_body w 401 _, reject_status w 401 _⟩
  · simp [MustBeAuthenticated, hu]
  · simp [MustHaveAnyScope, hu]
  · simp [MustHaveAllScopes, hu]

/-- Witness of C3: the request `CheckJWT` forwards when there is no `Authorization` header. -/
theorem guards_unauthenticated_witness :
    CheckJWT (sampleLib sampleIssued) (NewMiddleware "test_secret") .fresh ⟨[], []⟩
        = .callNext .fresh (requestWithUser .nil) ∧
      (requestWithUser .nil).ctxValue UserKey = .nil ∧
      MustBeAuthenticated .fresh (requestWithUser .nil)
        = .done ⟨[("Content-Type", "plain/text")], some 401, "Token not provided or invalid"⟩ ∧
      MustHaveAnyScope ["read"] .fresh (requestWithUser .nil)
        = .done ⟨[("Content-Type", "plain/text")], some 401, "Token not provided or invalid"⟩ ∧
      MustHaveAllScopes ["read"] .fresh (requestWithUser .nil)
        = .done ⟨[("Content-Type", "plain/text")], some 401, "Token not provided or invalid"⟩ :=
  ⟨by decide, by decide,
   (guards_unauthenticated ["read"] .fresh (requestWithUser .nil) (by decide)).1,
   (guards_unauthenticated ["read"] .fresh (requestWithUser .nil) (by decide)).2.1,
   (guards_unauthenticated ["read"] .fresh (requestWithUser .nil) (by decide)).2.2.1⟩

/-! ## The header extractor -/

theorem splitChars_ne_nil (sep : Char) (l : List Char) : splitChars sep l ≠ [] := by
  induction l with
  | nil => simp [splitChars]
  | cons c cs ih =>
    by_cases hc : c = sep
    · simp [splitChars, hc]
    · cases hs : splitChars sep cs <;> simp [splitChars, hc, hs]

theorem splitChars_of_not_mem (sep : Char) (l : List Char) (h : sep ∉ l) :
    splitChars sep l = [l] := by
  induction l with
  | nil => simp [splitChars]
  | cons c cs ih =>
    have hc : c ≠ sep := fun he => h (by simp [he])
    have hcs : sep ∉ cs := fun hm => h (List.mem_cons_of_mem c hm)
    simp [splitChars, hc, ih hcs]

theorem splitChars_append_sep (sep : Char) (a b : List Char) (h : sep ∉ a) :
    splitChars sep (a ++ sep :: b) = a :: splitChars sep b := by
  induction a with
  | nil => simp [splitChars]
  | cons c cs ih =>
    have hc : c ≠ sep := fun he => h (by simp [he])
    have hcs : sep ∉ cs := fun hm => h (List.mem_cons_of_mem c hm)
    simp [splitChars, hc, ih hcs]

theorem splitChars_length (sep : Char) (l : List Char) :
    (splitChars sep l).length = l.count sep + 1 := by
  induction l with
  | nil => simp [splitChars]
  | cons c cs ih =>
    by_cases hc : c = sep
    · simp [splitChars, hc, ih]
    · have hne : (c == sep) = false := by simpa using hc
      cases hs : splitChars sep cs with
      | nil => exact absurd hs (splitChars_ne_nil sep cs)
      | cons p ps =>
        rw [hs] at ih
        simp [splitChars, hc, hs, List.count_cons, hne] at ih ⊢
        omega

theorem bearer_data (tok : String) :
    ("Bearer " ++ tok).data = ['B', 'e', 'a', 'r', 'e', 'r'] ++ ' ' :: tok.data := by
  rw [String.data_append]
  rfl

/-- The header `"Bearer " ++ tok` passes the extractor, which isolates `tok`, whenever
`tok` contains no space. -/
theorem extractsToken_bearer (tok : String) (h : ' ' ∉ tok.data) :
    extractsToken ("Bearer " ++ tok) tok := by
  have hsplit : stringsSplit ("Bearer " ++ tok) ' ' = ["Bearer", tok] := by
    unfold stringsSplit
    rw [bearer_data, splitChars_append_sep _ _ _ (by decide), splitChars_of_not_mem _ _ h]
    rfl
  refine ⟨?_, ?_, ?_, ?_⟩
  · intro he
    have hd := congrArg String.data he
    rw [bearer_data] at hd
    cases hd
  · unfold stringsHasPrefix
    rw [bearer_data]
    rfl
  · rw [hsplit]
    rfl
  · rw [hsplit]
    rfl

/-- A token segment with a space in it makes the header split into more than two parts. -/
theorem bearer_split_length (tok : String) :
    (stringsSplit ("Bearer " ++ tok) ' ').length = tok.data.count ' ' + 2 := by
  unfold stringsSplit
  rw [List.length_map, bearer_data, splitChars_append_sep _ _ _ (by decide),
    List.length_cons, splitChars_length]

/-! ## `CheckJWT` once the header has been taken apart -/

theorem convertScopes_strings (ss scopesStr : List String) :
    convertScopes (ss.map GoVal.str) scopesStr = .ok (scopesStr ++ ss) := by
  induction ss generalizing scopesStr with
  | nil => simp [convertScopes]
  | cons s rest ih => simp [convertScopes, ih]

/-- A run of `CheckJWT` on a header the extractor accepts is decided by the verifier and
the claims alone. -/
theorem checkJWT_of_extractsToken (lib : Lib) (m : UnifiedLoginMiddleware)
    (w : ResponseWriter) (r : Request) (tok : String)
    (hh : extractsToken (r.headerGet "Authorization") tok) :
    CheckJWT lib m w r =
      match lib.jwtParse tok (keyfunc lib m) with
      | .error _ => .callNext w (setUserInContext r .nil)
      | .ok token =>
        match token.Claims with
        | .mapClaims claims =>
          match lib.getSubject claims with
          | .error _ => .callNext w (setUserInContext r .nil)
          | .ok userId =>
            match scopesOfClaims claims with
            | .error p => .panic p
            | .ok scopesStr =>
              match lib.uuidParse userId with
              | none => .panic (.uuidMustParse userId)
              | some uid =>
                .callNext w (setUserInContext r
                  (.userInformation { UserId := uid, Scopes := scopesStr }))
        | .other => .callNext w r := by
  obtain ⟨hne, hpre, hlen, htok⟩ := hh
  simp only [CheckJWT, hne, hpre, hlen, htok]
  simp

/-- A verified token with a well-typed `scopes` claim: when the extractor isolates `tok`, the
verifier accepts it with a claim map whose subject reads as `sub`, `sub` denotes the
identifier `uid`, and the `scopes` claim is the list of strings `scopes` (or is absent and
`scopes` is empty), `CheckJWT` calls `next` with the writer unchanged and the request whose
context holds the `UserInformation` with `UserId` `uid` and `Scopes` `scopes`. -/
theorem checkJWT_valid_token (lib : Lib) (m : UnifiedLoginMiddleware) (w : ResponseWriter)
    (r : Request) (tok sub : String) (token : Token) (claims : List (String × GoVal))
    (uid : UUID) (scopes : List String)
    (hh : extractsToken (r.headerGet "Authorization") tok)
    (hp : lib.jwtParse tok (keyfunc lib m) = .ok token)
    (hc : token.Claims = .mapClaims claims)
    (hs : lib.getSubject claims = .ok sub)
    (hu : lib.uuidParse sub = some uid)
    (hsc : claims.lookup "scopes" = some (.slice (scopes.map GoVal.str)) ∨
      (claims.lookup "scopes" = none ∧ scopes = [])) :
    CheckJWT lib m w r =
        .callNext w (setUserInContext r (.userInformation { UserId := uid, Scopes := scopes })) ∧
      (setUserInContext r (.userInformation { UserId := uid, Scopes := scopes })).ctxValue
        UserKey = .userInformation { UserId := uid, Scopes := scopes } := by
  have hscopes : scopesOfClaims claims = .ok scopes := by
    rcases hsc with h | ⟨h, rfl⟩
    · simp [scopesOfClaims, mapIndex, h, convertScopes_strings]
    · simp [scopesOfClaims, mapIndex, h]
  refine ⟨?_, ctxValue_setUserInContext _ _⟩
  rw [checkJWT_of_extractsToken lib m w r tok hh]
  simp [hp, hc, hs, hu, hscopes]

/-- Instances of `checkJWT_valid_token`: the sample tokens `valid` and `noscopes`, both
signed with the configured secret, the second without a `scopes` claim. -/
theorem checkJWT_valid_token_witness :
    CheckJWT (sampleLib sampleIssued) (NewMiddleware "test_secret") .fresh
        (requestWithAuthorization "Bearer valid") =
      .callNext .fresh (setUserInContext (requestWithAuthorization "Bearer valid")
        (.userInformation { UserId := sampleUserId, Scopes := ["read", "write"] })) ∧
    CheckJWT (sampleLib sampleIssued) (NewMiddleware "test_secret") .fresh
        (requestWithAuthorization "Bearer noscopes") =
      .callNext .fresh (setUserInContext (requestWithAuthorization "Bearer noscopes")
        (.userInformation { UserId := sampleUserId, Scopes := [] })) :=
  ⟨(checkJWT_valid_token (sampleLib sampleIssued) (NewMiddleware "test_secret") .fresh
      (requestWithAuthorization "Bearer valid") "valid" "951f48de-cf08-ec11-945d-005056a2678b"
      (hs256Token [("sub", .str "951f48de-cf08-ec11-945d-005056a2678b"),
        ("scopes", .slice [.str "read", .str "write"])])
      [("sub", .str "951f48de-cf08-ec11-945d-005056a2678b"),
        ("scopes", .slice [.str "read", .str "write"])]
      sampleUserId ["read", "write"]
      (by decide) (by rfl) (by rfl) (by rfl) (by decide) (Or.inl (by rfl))).1,
   (checkJWT_valid_token (sampleLib sampleIssued) (NewMiddleware "test_secret") .fresh
      (requestWithAuthorization "Bearer noscopes") "noscopes"
      "951f48de-cf08-ec11-945d-005056a2678b"
      (hs256Token [("sub", .str "951f48de-cf08-ec11-945d-005056a2678b")])
      [("sub", .str "951f48de-cf08-ec11-945d-005056a2678b")]
      sampleUserId []
      (by decide) (by rfl) (by rfl) (by rfl) (by decide) (Or.inr ⟨by rfl, rfl⟩)).1⟩

/-! ## Subject and scope claims the resolver does not handle -/

/-- A subject that `uuid.Parse` rejects makes `uuid.MustParse` panic, whatever library
instance is used. -/
theorem checkJWT_subject_not_uuid (lib : Lib) (m : UnifiedLoginMiddleware)
    (w : ResponseWriter) (r : Request) (tok sub : String) (token : Token)
    (claims : List (String × GoVal)) (scopes : List String)
    (hh : extractsToken (r.headerGet "Authorization") tok)
    (hp : lib.jwtParse tok (keyfunc lib m) = .ok token)
    (hc : token.Claims = .mapClaims claims)
    (hs : lib.getSubject claims = .ok sub)
    (hsc : scopesOfClaims claims = .ok scopes)
    (hu : lib.uuidParse sub = none) :
    CheckJWT lib m w r = .panic (.uuidMustParse sub) := by
  rw [checkJWT_of_extractsToken lib m w r tok hh]
  simp [hp, hc, hs, hu, hsc]

/-- A subject claim on which `GetSubject` fails gives nil under `UserKey`. -/
theorem checkJWT_subject_error (lib : Lib) (m : UnifiedLoginMiddleware)
    (w : ResponseWriter) (r : Request) (tok e : String) (token : Token)
    (claims : List (String × GoVal))
    (hh : extractsToken (r.headerGet "Authorization") tok)
    (hp : lib.jwtParse tok (keyfunc lib m) = .ok token)
    (hc : token.Claims = .mapClaims claims)
    (hs : lib.getSubject claims = .error e) :
    CheckJWT lib m w r = .callNext w (setUserInContext r .nil) := by
  rw [checkJWT_of_extractsToken lib m w r tok hh]
  simp [hp, hc, hs]

/-- The conversion loop stops with a panic at the first element that is not a string. -/
theorem convertScopes_not_string (ss : List String) (v : GoVal) (rest : List GoVal)
    (scopesStr : List String) (hv : ∀ s, v ≠ .str s) :
    convertScopes (ss.map GoVal.str ++ v :: rest) scopesStr
      = .error (.interfaceConversion v.typeName) := by
  induction ss generalizing scopesStr with
  | nil =>
    cases v with
    | str s => exact absurd rfl (hv s)
    | _ => simp [convertScopes]
  | cons s more ih => simp [convertScopes, ih]

/-- A `scopes` list with an element that is not a string makes `CheckJWT` panic, whatever
library instance is used. -/
theorem checkJWT_scope_not_string (lib : Lib) (m : UnifiedLoginMiddleware)
    (w : ResponseWriter) (r : Request) (tok sub : String) (token : Token)
    (claims : List (String × GoVal)) (ss : List String) (v : GoVal) (rest : List GoVal)
    (hh : extractsToken (r.headerGet "Authorization") tok)
    (hp : lib.jwtParse tok (keyfunc lib m) = .ok token)
    (hc : token.Claims = .mapClaims claims)
    (hs : lib.getSubject claims = .ok sub)
    (hsc : claims.lookup "scopes" = some (.slice (ss.map GoVal.str ++ v :: rest)))
    (hv : ∀ s, v ≠ .str s) :
    CheckJWT lib m w r = .panic (.interfaceConversion v.typeName) := by
  rw [checkJWT_of_extractsToken lib m w r tok hh]
  simp [hp, hc, hs, scopesOfClaims, mapIndex, hsc, convertScopes_not_string ss v rest [] hv]

/-- C5 (evaluation of the code): for the verified sample tokens whose `sub` is the string
`not-a-uuid`, respectively is missing, `CheckJWT` panics in `uuid.MustParse` instead of
forwarding a request with nil under `UserKey`. -/
theorem checkJWT_bad_subject_panics :
    CheckJWT (sampleLib sampleIssued) (NewMiddleware "test_secret") .fresh
        (requestWithAuthorization "Bearer badsub") = .panic (.uuidMustParse "not-a-uuid") ∧
      CheckJWT (sampleLib sampleIssued) (NewMiddleware "test_secret") .fresh
        (requestWithAuthorization "Bearer nosub") = .panic (.uuidMustParse "") :=
  ⟨checkJWT_subject_not_uuid (sampleLib sampleIssued) (NewMiddleware "test_secret") .fresh
      (requestWithAuthorization "Bearer badsub") "badsub" "not-a-uuid"
      (hs256Token [("sub", .str "not-a-uuid"), ("scopes", .slice [.str "read"])])
      [("sub", .str "not-a-uuid"), ("scopes", .slice [.str "read"])] ["read"]
      (by decide) (by rfl) (by rfl) (by rfl) (by rfl) (by decide),
   by decide⟩

/-- C6 (evaluation of the code): it is not the case that `CheckJWT` completes for every
token segment after `"Bearer "`: on the sample tokens `badsub` and `mixed` it panics. -/
theorem checkJWT_bearer_token_can_panic :
    ¬ ∀ token : String, ∃ w r, CheckJWT (sampleLib sampleIssued) (NewMiddleware "test_secret")
        .fresh (requestWithAuthorization ("Bearer " ++ token)) = .callNext w r := by
  intro h
  obtain ⟨w, r, hrun⟩ := h "mixed"
  have hp : CheckJWT (sampleLib sampleIssued) (NewMiddleware "test_secret") .fresh
      (requestWithAuthorization ("Bearer " ++ "mixed"))
        = .panic (.interfaceConversion "float64") := by decide
  rw [hp] at hrun
  cases hrun

/-- C7 (evaluation of the code): the header `BearerX valid`, whose scheme word is not
`Bearer`, is accepted: the token is verified and its identity attached. -/
theorem checkJWT_accepts_longer_scheme :
    CheckJWT (sampleLib sampleIssued) (NewMiddleware "test_secret") .fresh
        (requestWithAuthorization "BearerX valid") =
      .callNext .fresh (setUserInContext (requestWithAuthorization "BearerX valid")
        (.userInformation { UserId := sampleUserId, Scopes := ["read", "write"] })) := by
  decide

/-- C9 (evaluation of the code): for the verified sample token whose `scopes` claim is
`["read", 1, "write"]`, `CheckJWT` panics in the type assertion instead of attaching an
identity with the scopes `read`, `write`. -/
theorem checkJWT_mixed_scopes_panics :
    CheckJWT (sampleLib sampleIssued) (NewMiddleware "test_secret") .fresh
        (requestWithAuthorization "Bearer mixed") = .panic (.interfaceConversion "float64") :=
  checkJWT_scope_not_string (sampleLib sampleIssued) (NewMiddleware "test_secret") .fresh
    (requestWithAuthorization "Bearer mixed") "mixed" "951f48de-cf08-ec11-945d-005056a2678b"
    (hs256Token [("sub", .str "951f48de-cf08-ec11-945d-005056a2678b"),
      ("scopes", .slice [.str "read", .float64 1, .str "write"])])
    [("sub", .str "951f48de-cf08-ec11-945d-005056a2678b"),
      ("scopes", .slice [.str "read", .float64 1, .str "write"])]
    ["read"] (.float64 1) [.str "write"]
    (by decide) (by rfl) (by rfl) (by rfl) (by rfl) (by intro s hs; cases hs)

/-- C4 (evaluation of the code): the sample token `mixed` is accepted by the verifier under
the configured secret, its `sub` claim reads as a string that denotes the sample identifier,
and yet `CheckJWT` on the header `Bearer mixed` attaches no `UserInformation` and does not
call `next`: it panics in the conversion of the `scopes` claim `["read", 1, "write"]`. -/
theorem checkJWT_accepted_token_not_attached :
    (sampleLib sampleIssued).jwtParse "mixed"
        (keyfunc (sampleLib sampleIssued) (NewMiddleware "test_secret"))
      = .ok (hs256Token [("sub", .str "951f48de-cf08-ec11-945d-005056a2678b"),
          ("scopes", .slice [.str "read", .float64 1, .str "write"])]) ∧
    (sampleLib sampleIssued).getSubject
        [("sub", .str "951f48de-cf08-ec11-945d-005056a2678b"),
          ("scopes", .slice [.str "read", .float64 1, .str "write"])]
      = .ok "951f48de-cf08-ec11-945d-005056a2678b" ∧
    (sampleLib sampleIssued).uuidParse "951f48de-cf08-ec11-945d-005056a2678b"
      = some sampleUserId ∧
    extractsToken ((requestWithAuthorization "Bearer mixed").headerGet "Authorization")
      "mixed" ∧
    CheckJWT (sampleLib sampleIssued) (NewMiddleware "test_secret") .fresh
        (requestWithAuthorization "Bearer mixed") = .panic (.interfaceConversion "float64") ∧
    ¬ ∃ w r, CheckJWT (sampleLib sampleIssued) (NewMiddleware "test_secret") .fresh
        (requestWithAuthorization "Bearer mixed") = .callNext w r := by
  have hrun : CheckJWT (sampleLib sampleIssued) (NewMiddleware "test_secret") .fresh
      (requestWithAuthorization "Bearer mixed") = .panic (.interfaceConversion "float64") := by
    decide
  refine ⟨rfl, rfl, by decide, by decide, hrun, ?_⟩
  rintro ⟨w, r, h⟩
  rw [hrun] at h
  cases h

/-! ## Headers the extractor rejects, and tokens the verifier rejects -/

/-- C8: when the `Authorization` value is empty, does not start with `Bearer`, or does not
split at single spaces into exactly two parts, `CheckJWT` calls `next` with the writer
unchanged and nil under `UserKey`; it does so for every library instance, so the verifier
has no part in the result, and the run is not a panic. -/
theorem checkJWT_malformed_header (lib : Lib) (m : UnifiedLoginMiddleware)
    (w : ResponseWriter) (r : Request)
    (hh : r.headerGet "Authorization" = "" ∨
      stringsHasPrefix (r.headerGet "Authorization") "Bearer" = false ∨
      (stringsSplit (r.headerGet "Authorization") ' ').length ≠ 2) :
    CheckJWT lib m w r = .callNext w (setUserInContext r .nil) ∧
      (setUserInContext r .nil).ctxValue UserKey = .nil ∧
      ∀ lib2 : Lib, CheckJWT lib2 m w r = CheckJWT lib m w r := by
  have hrun : ∀ l : Lib, CheckJWT l m w r = .callNext w (setUserInContext r .nil) := by
    intro l
    by_cases h1 : r.headerGet "Authorization" = ""
    · simp [CheckJWT, h1]
    · by_cases h2 : stringsHasPrefix (r.headerGet "Authorization") "Bearer" = false
      · simp [CheckJWT, h1, h2]
      · have h3 : (stringsSplit (r.headerGet "Authorization") ' ').length ≠ 2 := by
          rcases hh with h | h | h
          · exact absurd h h1
          · exact absurd h h2
          · exact h
        simp only [Bool.not_eq_false] at h2
        simp [CheckJWT, h1, h2, h3]
  exact ⟨hrun lib, ctxValue_setUserInContext r .nil, fun lib2 => (hrun lib2).trans (hrun lib).symm⟩

/-- Witness of C8: the header values `Bearer`, `Bearer a b`, `Basic xyz`, `Bearer123` and
the empty one. -/
theorem checkJWT_malformed_header_witness :
    CheckJWT (sampleLib sampleIssued) (NewMiddleware "test_secret") .fresh
        (requestWithAuthorization "Bearer")
        = .callNext .fresh (setUserInContext (requestWithAuthorization "Bearer") .nil) ∧
      CheckJWT (sampleLib sampleIssued) (NewMiddleware "test_secret") .fresh
        (requestWithAuthorization "Bearer a b")
        = .callNext .fresh (setUserInContext (requestWithAuthorization "Bearer a b") .nil) ∧
      CheckJWT (sampleLib sampleIssued) (NewMiddleware "test_secret") .fresh
        (requestWithAuthorization "Basic xyz")
        = .callNext .fresh (setUserInContext (requestWithAuthorization "Basic xyz") .nil) ∧
      CheckJWT (sampleLib sampleIssued) (NewMiddleware "test_secret") .fresh
        (requestWithAuthorization "Bearer123")
        = .callNext .fresh (setUserInContext (requestWithAuthorization "Bearer123") .nil) ∧
      CheckJWT (sampleLib sampleIssued) (NewMiddleware "test_secret") .fresh
        (requestWithAuthorization "")
        = .callNext .fresh (setUserInContext (requestWithAuthorization "") .nil) :=
  ⟨(checkJWT_malformed_header _ _ _ (requestWithAuthorization "Bearer")
      (Or.inr (Or.inr (by decide)))).1,
   (checkJWT_malformed_header _ _ _ (requestWithAuthorization "Bearer a b")
      (Or.inr (Or.inr (by decide)))).1,
   (checkJWT_malformed_header _ _ _ (requestWithAuthorization "Basic xyz")
      (Or.inr (Or.inl (by decide)))).1,
   (checkJWT_malformed_header _ _ _ (requestWithAuthorization "Bearer123")
      (Or.inr (Or.inr (by decide)))).1,
   (checkJWT_malformed_header _ _ _ (requestWithAuthorization "")
      (Or.inl (by decide))).1⟩

/-- C10: when the verifier returns an error for the token the extractor isolated,
`CheckJWT` calls `next` with the writer unchanged and nil under `UserKey`; so for two
requests whose tokens both fail verification the context values under `UserKey` are the
same, whatever the tokens contain. -/
theorem checkJWT_verification_failure (lib : Lib) (m : UnifiedLoginMiddleware)
    (w1 w2 : ResponseWriter) (r1 r2 : Request) (tok1 tok2 e1 e2 : String)
    (hh1 : extractsToken (r1.headerGet "Authorization") tok1)
    (hp1 : lib.jwtParse tok1 (keyfunc lib m) = .error e1)
    (hh2 : extractsToken (r2.headerGet "Authorization") tok2)
    (hp2 : lib.jwtParse tok2 (keyfunc lib m) = .error e2) :
    CheckJWT lib m w1 r1 = .callNext w1 (setUserInContext r1 .nil) ∧
      CheckJWT lib m w2 r2 = .callNext w2 (setUserInContext r2 .nil) ∧
      (setUserInContext r1 .nil).ctxValue UserKey = .nil ∧
      (setUserInContext r1 .nil).ctxValue UserKey
        = (setUserInContext r2 .nil).ctxValue UserKey := by
  refine ⟨?_, ?_, ctxValue_setUserInContext r1 .nil, ?_⟩
  · rw [checkJWT_of_extractsToken lib m w1 r1 tok1 hh1]
    simp [hp1]
  · rw [checkJWT_of_extractsToken lib m w2 r2 tok2 hh2]
    simp [hp2]
  · rw [ctxValue_setUserInContext, ctxValue_setUserInContext]

/-- Witness of C10: the sample token `wrong`, signed with another secret, and a token
string that is not a token at all. -/
theorem checkJWT_verification_failure_witness :
    CheckJWT (sampleLib sampleIssued) (NewMiddleware "test_secret") .fresh
        (requestWithAuthorization "Bearer wrong")
        = .callNext .fresh (setUserInContext (requestWithAuthorization "Bearer wrong") .nil) ∧
      CheckJWT (sampleLib sampleIssued) (NewMiddleware "test_secret") .fresh
        (requestWithAuthorization "Bearer a.b.c")
        = .callNext .fresh (setUserInContext (requestWithAuthorization "Bearer a.b.c") .nil) :=
  have h := checkJWT_verification_failure (sampleLib sampleIssued)
    (NewMiddleware "test_secret") .fresh .fresh (requestWithAuthorization "Bearer wrong")
    (requestWithAuthorization "Bearer a.b.c") "wrong" "a.b.c"
    "token signature is invalid" "token is malformed"
    (by decide) (by rfl) (by decide) (by rfl)
  ⟨h.1, h.2.1⟩

/-! ## The key function -/

/-- The sample verifier fails whenever the key function fails on the issued token. -/
theorem sampleLib_parsesTo (issued : List (String × String × Token)) (tokenString : String)
    (signedWith : String) (token : Token)
    (hl : issued.lookup tokenString = some (signedWith, token)) :
    (sampleLib issued).parsesTo tokenString token := by
  intro keyFunc e hk
  exact ⟨"token is unverifiable: " ++ e, by simp [sampleLib, sampleJwtParse, hl, hk]⟩

/-- C11: the key function handed to the verifier returns the bytes of the configured secret
exactly when the method of the token is of the HMAC family, and for every other method it
returns the error `Unexpected signing method: ` followed by the rendering of the `alg`
header, and no key; so when the extractor isolates a token string whose parsed form has a
method outside the HMAC family, `CheckJWT` calls `next` with nil under `UserKey`. -/
theorem keyfunc_algorithm_family (lib : Lib) (m : UnifiedLoginMiddleware) (token : Token) :
    (keyfunc lib m token = .ok m.secret.toUTF8 ↔ ∃ alg, token.Method = .hmac alg) ∧
      ((∀ alg, token.Method ≠ .hmac alg) →
        keyfunc lib m token = .error ("Unexpected signing method: " ++
            lib.sprintV (mapIndex token.Header "alg")) ∧
          (∀ key, keyfunc lib m token ≠ .ok key) ∧
          ∀ (w : ResponseWriter) (r : Request) (tok : String),
            extractsToken (r.headerGet "Authorization") tok → lib.parsesTo tok token →
              CheckJWT lib m w r = .callNext w (setUserInContext r .nil)) := by
  constructor
  · constructor
    · intro h
      cases hm : token.Method with
      | hmac alg => exact ⟨alg, rfl⟩
      | _ => simp [keyfunc, hm] at h
    · rintro ⟨alg, hm⟩
      simp [keyfunc, hm]
  · intro hm
    have herr : keyfunc lib m token = .error ("Unexpected signing method: " ++
        lib.sprintV (mapIndex token.Header "alg")) := by
      cases hmeth : token.Method with
      | hmac alg => exact absurd hmeth (hm alg)
      | _ => simp [keyfunc, hmeth]
    refine ⟨herr, ?_, ?_⟩
    · intro key hk
      rw [herr] at hk
      cases hk
    · intro w r tok hh hp
      obtain ⟨e2, he2⟩ := hp (keyfunc lib m) _ herr
      rw [checkJWT_of_extractsToken lib m w r tok hh]
      simp [he2]

/-- Witness of C11: the key function on the sample HS256 and RS256 tokens, and `CheckJWT`
on the header carrying the RS256 one. -/
theorem keyfunc_algorithm_family_witness :
    keyfunc (sampleLib sampleIssuedMore) (NewMiddleware "test_secret")
        (hs256Token [("sub", .str "951f48de-cf08-ec11-945d-005056a2678b")])
        = .ok "test_secret".toUTF8 ∧
      keyfunc (sampleLib sampleIssuedMore) (NewMiddleware "test_secret")
        (rs256Token [("sub", .str "951f48de-cf08-ec11-945d-005056a2678b"),
          ("scopes", .slice [.str "read"])])
        = .error "Unexpected signing method: RS256" ∧
      CheckJWT (sampleLib sampleIssuedMore) (NewMiddleware "test_secret") .fresh
        (requestWithAuthorization "Bearer rs256")
        = .callNext .fresh (setUserInContext (requestWithAuthorization "Bearer rs256") .nil) :=
  ⟨(keyfunc_algorithm_family (sampleLib sampleIssuedMore) (NewMiddleware "test_secret")
      (hs256Token [("sub", .str "951f48de-cf08-ec11-945d-005056a2678b")])).1.2 ⟨"HS256", rfl⟩,
   ((keyfunc_algorithm_family (sampleLib sampleIssuedMore) (NewMiddleware "test_secret")
      (rs256Token [("sub", .str "951f48de-cf08-ec11-945d-005056a2678b"),
        ("scopes", .slice [.str "read"])])).2 (by intro alg h; cases h)).1,
   ((keyfunc_algorithm_family (sampleLib sampleIssuedMore) (NewMiddleware "test_secret")
      (rs256Token [("sub", .str "951f48de-cf08-ec11-945d-005056a2678b"),
        ("scopes", .slice [.str "read"])])).2 (by intro alg h; cases h)).2.2
      .fresh (requestWithAuthorization "Bearer rs256") "rs256" (by decide)
      (sampleLib_parsesTo sampleIssuedMore "rs256" "test_secret" _ rfl)⟩

/-! ## The content type of the failure responses -/

/-- C12 (evaluation of the code): the failure responses of the three guards carry the
`Content-Type` value `plain/text`, not `text/plain`. -/
theorem guard_failure_content_type :
    (∀ (w : ResponseWriter) (code : Nat) (msg : String),
        (reject w code msg).header = w.header ++ [("Content-Type", "plain/text")]) ∧
      MustBeAuthenticated .fresh (requestWithUser .nil)
        = .done ⟨[("Content-Type", "plain/text")], some 401, "Token not provided or invalid"⟩ ∧
      MustHaveAnyScope ["read"] .fresh (requestWithUser .nil)
        = .done ⟨[("Content-Type", "plain/text")], some 401, "Token not provided or invalid"⟩ ∧
      MustHaveAllScopes ["read"] .fresh (requestWithUser .nil)
        = .done ⟨[("Content-Type", "plain/text")], some 401, "Token not provided or invalid"⟩ ∧
      MustHaveAnyScope ["admin"] .fresh
          (requestWithUser (.userInformation ⟨["read"], sampleUserId⟩))
        = .done ⟨[("Content-Type", "plain/text")], some 403, "Forbidden"⟩ ∧
      MustHaveAllScopes ["admin"] .fresh
          (requestWithUser (.userInformation ⟨["read"], sampleUserId⟩))
        = .done ⟨[("Content-Type", "plain/text")], some 403, "Forbidden"⟩ ∧
      ("Content-Type", "text/plain") ∉
        (reject .fresh 401 "Token not provided or invalid").header :=
  ⟨reject_header, by decide, by decide, by decide, by decide, by decide, by decide⟩

/-! ## The empty required list -/

/-- C13: on a request whose context holds a `UserInformation` under `UserKey`, whatever its
scopes, `MustHaveAllScopes` with the empty required list calls `next` with writer and
request unchanged, and `MustHaveAnyScope` with the empty required list returns without
calling `next` after writing the 403 response. -/
theorem empty_required_list (w : ResponseWriter) (r : Request) (u : UserInformation)
    (hu : r.ctxValue UserKey = .userInformation u) :
    MustHaveAllScopes [] w r = .callNext w r ∧
      MustHaveAnyScope [] w r = .done (reject w 403 "Forbidden") ∧
      (reject w 403 "Forbidden").body = w.body ++ "Forbidden" ∧
      (w.status = none → (reject w 403 "Forbidden").status = some 403) := by
  refine ⟨?_, ?_, reject_body w 403 _, reject_status w 403 _⟩
  · simp [MustHaveAllScopes, hu, allScopesLoop]
  · simp [MustHaveAnyScope, hu, anyScopeLoop]

/-- Witness of C13: an identity without scopes. -/
theorem empty_required_list_witness :
    MustHaveAllScopes [] .fresh (requestWithUser (.userInformation ⟨[], sampleUserId⟩))
        = .callNext .fresh (requestWithUser (.userInformation ⟨[], sampleUserId⟩)) ∧
      MustHaveAnyScope [] .fresh (requestWithUser (.userInformation ⟨[], sampleUserId⟩))
        = .done ⟨[("Content-Type", "plain/text")], some 403, "Forbidden"⟩ :=
  have h := empty_required_list .fresh
    (requestWithUser (.userInformation ⟨[], sampleUserId⟩)) ⟨[], sampleUserId⟩ (by decide)
  ⟨h.1, h.2.1⟩

/-! ## The example handler behind `CheckJWT` and `MustBeAuthenticated` -/

/-- On a context value that is nil or a `UserInformation` value, the pointer assertion of
the example handler fails and the handler returns without writing. -/
theorem handler_of_value (jsonMarshal : Option UserInformation → String)
    (w : ResponseWriter) (r : Request)
    (hv : r.ctxValue UserKey = .nil ∨ ∃ u, r.ctxValue UserKey = .userInformation u) :
    handler jsonMarshal w r = .ok w := by
  rcases hv with h | ⟨u, h⟩ <;> simp [handler, h]

/-- C14 (evaluation of the code): on the request with the valid sample token the chain
`CheckJWT(MustBeAuthenticated(handler))` reaches the handler with a `UserInformation` value
under `UserKey`, not a pointer; the assertion to `*UserInformation` fails there and the
handler returns without writing anything. -/
theorem mainChain_downcast_fails (jsonMarshal : Option UserInformation → String) :
    CheckJWT (sampleLib sampleIssued) (NewMiddleware "test_secret") .fresh
        (requestWithAuthorization "Bearer valid")
        = .callNext .fresh (setUserInContext (requestWithAuthorization "Bearer valid")
            (.userInformation { UserId := sampleUserId, Scopes := ["read", "write"] })) ∧
      MustBeAuthenticated .fresh (setUserInContext (requestWithAuthorization "Bearer valid")
          (.userInformation { UserId := sampleUserId, Scopes := ["read", "write"] }))
        = .callNext .fresh (setUserInContext (requestWithAuthorization "Bearer valid")
            (.userInformation { UserId := sampleUserId, Scopes := ["read", "write"] })) ∧
      (∀ target, (setUserInContext (requestWithAuthorization "Bearer valid")
          (.userInformation { UserId := sampleUserId, Scopes := ["read", "write"] })).ctxValue
            UserKey ≠ .userInformationPtr target) ∧
      handler jsonMarshal .fresh (setUserInContext (requestWithAuthorization "Bearer valid")
          (.userInformation { UserId := sampleUserId, Scopes := ["read", "write"] }))
        = .ok .fresh ∧
      mainChain (sampleLib sampleIssued) (NewMiddleware "test_secret") jsonMarshal .fresh
        (requestWithAuthorization "Bearer valid") = .ok .fresh := by
  have hc : CheckJWT (sampleLib sampleIssued) (NewMiddleware "test_secret") .fresh
      (requestWithAuthorization "Bearer valid")
      = .callNext .fresh (setUserInContext (requestWithAuthorization "Bearer valid")
          (.userInformation { UserId := sampleUserId, Scopes := ["read", "write"] })) := by
    decide
  have hm : MustBeAuthenticated .fresh (setUserInContext (requestWithAuthorization "Bearer valid")
      (.userInformation { UserId := sampleUserId, Scopes := ["read", "write"] }))
      = .callNext .fresh (setUserInContext (requestWithAuthorization "Bearer valid")
          (.userInformation { UserId := sampleUserId, Scopes := ["read", "write"] })) := by
    decide
  have hh : handler jsonMarshal .fresh (setUserInContext (requestWithAuthorization "Bearer valid")
      (.userInformation { UserId := sampleUserId, Scopes := ["read", "write"] }))
      = .ok .fresh :=
    handler_of_value jsonMarshal _ _ (Or.inr ⟨_, ctxValue_setUserInContext _ _⟩)
  refine ⟨hc, hm, ?_, hh, ?_⟩
  · intro target h
    rw [ctxValue_setUserInContext] at h
    cases h
  · simp only [mainChain, serve, hc, Action.run, hm, hh]

/-! ## The scope guards imply `MustBeAuthenticated` -/

/-- C15: whenever `MustHaveAnyScope(required)` or `MustHaveAllScopes(required)` calls `next`
on a request, `MustBeAuthenticated` calls `next` on the same request. -/
theorem scope_guard_implies_authenticated (required : List String) (w : ResponseWriter)
    (r : Request)
    (h : (∃ w2 r2, MustHaveAnyScope required w r = .callNext w2 r2) ∨
      (∃ w2 r2, MustHaveAllScopes required w r = .callNext w2 r2)) :
    MustBeAuthenticated w r = .callNext w r := by
  cases hv : r.ctxValue UserKey with
  | nil =>
    rcases h with ⟨w2, r2, h⟩ | ⟨w2, r2, h⟩
    · simp [MustHaveAnyScope, hv] at h
    · simp [MustHaveAllScopes, hv] at h
  | userInformation u => simp [MustBeAuthenticated, hv]
  | userInformationPtr t => simp [MustBeAuthenticated, hv]
  | other n => simp [MustBeAuthenticated, hv]

/-- Witness of C15: the identity with scopes `read`, `write` and the required list `read`. -/
theorem scope_guard_implies_authenticated_witness :
    MustBeAuthenticated .fresh
        (requestWithUser (.userInformation ⟨["read", "write"], sampleUserId⟩))
      = .callNext .fresh
        (requestWithUser (.userInformation ⟨["read", "write"], sampleUserId⟩)) :=
  scope_guard_implies_authenticated ["read"] .fresh
    (requestWithUser (.userInformation ⟨["read", "write"], sampleUserId⟩))
    (Or.inl ⟨.fresh, requestWithUser (.userInformation ⟨["read", "write"], sampleUserId⟩),
      by decide⟩)

/-! ## Order and repetition of scopes -/

theorem sameScopes_of_perm (a b : List String) (h : a.Perm b) : sameScopes a b :=
  fun _ => h.mem_iff

theorem sameScopes_cons_of_mem (a : List String) (x : String) (h : x ∈ a) :
    sameScopes a (x :: a) := by
  intro y
  constructor
  · exact fun hy => List.mem_cons_of_mem x hy
  · intro hy
    rcases List.mem_cons.1 hy with rfl | hy
    · exact h
    · exact hy

theorem anyScopeLoop_congr (us us2 req req2 : List String) (hs : sameScopes us us2)
    (hr : sameScopes req req2) : anyScopeLoop us req = anyScopeLoop us2 req2 := by
  rw [Bool.eq_iff_iff, anyScopeLoop_iff, anyScopeLoop_iff]
  constructor
  · rintro ⟨s, h1, h2⟩
    exact ⟨s, (hr s).1 h1, (hs s).1 h2⟩
  · rintro ⟨s, h1, h2⟩
    exact ⟨s, (hr s).2 h1, (hs s).2 h2⟩

theorem allScopesLoop_congr (us us2 req req2 : List String) (hs : sameScopes us us2)
    (hr : sameScopes req req2) : allScopesLoop us req = allScopesLoop us2 req2 := by
  rw [Bool.eq_iff_iff, allScopesLoop_iff, allScopesLoop_iff]
  constructor
  · intro h s h1
    exact (hs s).1 (h s ((hr s).2 h1))
  · intro h s h1
    exact (hs s).2 (h s ((hr s).1 h1))

/-- C16: when two requests hold identities whose scope lists contain the same strings (as
for a permutation, or after repeating elements already present), and two required lists
contain the same strings, `MustHaveAnyScope` calls `next` on the one exactly when it does on
the other and answers 403 on the one exactly when it does on the other, and so does
`MustHaveAllScopes`. -/
theorem scope_guards_order_independent (required required2 : List String)
    (w : ResponseWriter) (r r2 : Request) (u u2 : UserInformation)
    (hu : r.ctxValue UserKey = .userInformation u)
    (hu2 : r2.ctxValue UserKey = .userInformation u2)
    (hs : sameScopes u.Scopes u2.Scopes) (hr : sameScopes required required2) :
    (MustHaveAnyScope required w r = .callNext w r ↔
        MustHaveAnyScope required2 w r2 = .callNext w r2) ∧
      (MustHaveAnyScope required w r = .done (reject w 403 "Forbidden") ↔
        MustHaveAnyScope required2 w r2 = .done (reject w 403 "Forbidden")) ∧
      (MustHaveAllScopes required w r = .callNext w r ↔
        MustHaveAllScopes required2 w r2 = .callNext w r2) ∧
      (MustHaveAllScopes required w r = .done (reject w 403 "Forbidden") ↔
        MustHaveAllScopes required2 w r2 = .done (reject w 403 "Forbidden")) := by
  have hany := anyScopeLoop_congr u.Scopes u2.Scopes required required2 hs hr
  have hall := allScopesLoop_congr u.Scopes u2.Scopes required required2 hs hr
  refine ⟨?_, ?_, ?_, ?_⟩
  · cases hb : anyScopeLoop u2.Scopes required2 <;>
      simp [MustHaveAnyScope, hu, hu2, hany, hb]
  · cases hb : anyScopeLoop u2.Scopes required2 <;>
      simp [MustHaveAnyScope, hu, hu2, hany, hb]
  · cases hb : allScopesLoop u2.Scopes required2 <;>
      simp [MustHaveAllScopes, hu, hu2, hall, hb]
  · cases hb : allScopesLoop u2.Scopes required2 <;>
      simp [MustHaveAllScopes, hu, hu2, hall, hb]

/-- Witness of C16: held scopes `read`, `write` against `write`, `read`, and the required
list `admin`, `write` against `write`, `admin`, `write`. -/
theorem scope_guards_order_independent_witness :
    (MustHaveAnyScope ["admin", "write"] .fresh
          (requestWithUser (.userInformation ⟨["read", "write"], sampleUserId⟩))
        = .callNext .fresh
          (requestWithUser (.userInformation ⟨["read", "write"], sampleUserId⟩)) ↔
      MustHaveAnyScope ["write", "admin", "write"] .fresh
          (requestWithUser (.userInformation ⟨["write", "read"], sampleUserId⟩))
        = .callNext .fresh
          (requestWithUser (.userInformation ⟨["write", "read"], sampleUserId⟩))) ∧
    (MustHaveAllScopes ["admin", "write"] .fresh
          (requestWithUser (.userInformation ⟨["read", "write"], sampleUserId⟩))
        = .done (reject .fresh 403 "Forbidden") ↔
      MustHaveAllScopes ["write", "admin", "write"] .fresh
          (requestWithUser (.userInformation ⟨["write", "read"], sampleUserId⟩))
        = .done (reject .fresh 403 "Forbidden")) :=
  have h := scope_guards_order_independent ["admin", "write"] ["write", "admin", "write"]
    .fresh (requestWithUser (.userInformation ⟨["read", "write"], sampleUserId⟩))
    (requestWithUser (.userInformation ⟨["write", "read"], sampleUserId⟩))
    ⟨["read", "write"], sampleUserId⟩ ⟨["write", "read"], sampleUserId⟩
    (by decide) (by decide)
    (sameScopes_of_perm _ _ (List.Perm.swap "write" "read" []))
    (sameScopes_cons_of_mem ["admin", "write"] "write" (by decide))
  ⟨h.1, h.2.2.2⟩

/-! ## What the failure responses reveal -/

/-- C17: started on the same writer, any two runs of a scope guard that fail on
authenticated requests leave the same response, the one of `reject w 403 "Forbidden"`,
whatever the required and the held scopes are; and on two requests with nil under `UserKey`
all three guards leave the same 401 response. -/
theorem guard_failure_response_uniform (w : ResponseWriter) (r1 r2 : Request)
    (required1 required2 : List String) :
    (∀ u1 u2 w1 w2, r1.ctxValue UserKey = .userInformation u1 →
        r2.ctxValue UserKey = .userInformation u2 →
        (MustHaveAnyScope required1 w r1 = .done w1 ∨
          MustHaveAllScopes required1 w r1 = .done w1) →
        (MustHaveAnyScope required2 w r2 = .done w2 ∨
          MustHaveAllScopes required2 w r2 = .done w2) →
        w1 = w2 ∧ w1 = reject w 403 "Forbidden") ∧
      (r1.ctxValue UserKey = .nil → r2.ctxValue UserKey = .nil →
        MustBeAuthenticated w r1 = .done (reject w 401 "Token not provided or invalid") ∧
        MustBeAuthenticated w r2 = MustBeAuthenticated w r1 ∧
        MustHaveAnyScope required1 w r1 = MustBeAuthenticated w r1 ∧
        MustHaveAnyScope required2 w r2 = MustBeAuthenticated w r1 ∧
        MustHaveAllScopes required1 w r1 = MustBeAuthenticated w r1 ∧
        MustHaveAllScopes required2 w r2 = MustBeAuthenticated w r1) := by
  have hfail : ∀ (r : Request) (required : List String) (u : UserInformation)
      (w0 : ResponseWriter), r.ctxValue UserKey = .userInformation u →
      (MustHaveAnyScope required w r = .done w0 ∨ MustHaveAllScopes required w r = .done w0) →
      w0 = reject w 403 "Forbidden" := by
    intro r required u w0 hu h
    rcases h with h | h
    · cases hb : anyScopeLoop u.Scopes required <;>
        simp [MustHaveAnyScope, hu, hb] at h
      exact h.symm
    · cases hb : allScopesLoop u.Scopes required <;>
        simp [MustHaveAllScopes, hu, hb] at h
      exact h.symm
  constructor
  · intro u1 u2 w1 w2 h1 h2 hf1 hf2
    have e1 := hfail r1 required1 u1 w1 h1 hf1
    have e2 := hfail r2 required2 u2 w2 h2 hf2
    exact ⟨e1.trans e2.symm, e1⟩
  · intro h1 h2
    simp [MustBeAuthenticated, MustHaveAnyScope, MustHaveAllScopes, h1, h2]

/-- Witness of C17: two failing runs with different required and held scopes, and two
requests without identity. -/
theorem guard_failure_response_uniform_witness :
    (⟨[("Content-Type", "plain/text")], some 403, "Forbidden"⟩ : ResponseWriter)
        = reject .fresh 403 "Forbidden" ∧
      MustHaveAllScopes ["write"] .fresh (requestWithAuthorization "Basic xyz")
        = MustBeAuthenticated .fresh (requestWithUser .nil) :=
  have h := guard_failure_response_uniform .fresh (requestWithUser .nil)
    (requestWithAuthorization "Basic xyz") ["read"] ["write"]
  have h403 := (guard_failure_response_uniform .fresh
    (requestWithUser (.userInformation ⟨["read"], sampleUserId⟩))
    (requestWithUser (.userInformation ⟨["a", "b"], sampleUserId⟩)) ["admin"] ["a", "c"]).1
    ⟨["read"], sampleUserId⟩ ⟨["a", "b"], sampleUserId⟩
    ⟨[("Content-Type", "plain/text")], some 403, "Forbidden"⟩
    ⟨[("Content-Type", "plain/text")], some 403, "Forbidden"⟩
    (by decide) (by decide) (Or.inl (by decide)) (Or.inr (by decide))
  ⟨h403.2, (h.2 (by decide) (by decide)).2.2.2.2.2⟩

/-! ## `CheckJWT` always hands the request on -/

theorem lookup_mem {β : Type} (l : List (String × β)) (k : String) (v : β)
    (h : l.lookup k = some v) : (k, v) ∈ l := by
  induction l with
  | nil => simp [List.lookup] at h
  | cons p rest ih =>
    obtain ⟨a, b⟩ := p
    by_cases hk : k = a
    · subst hk
      simp [List.lookup] at h
      simp [h]
    · have hne : (k == a) = false := by simpa using hk
      simp [List.lookup, hne] at h
      exact List.mem_cons_of_mem _ (ih h)

/-- The sample verifier over a table of tokens with claim maps accepts only such tokens. -/
theorem sampleLib_parsesMapClaims (issued : List (String × String × Token))
    (h : ∀ e ∈ issued, ∃ claims, e.2.2.Claims = .mapClaims claims) :
    (sampleLib issued).parsesMapClaims := by
  intro tokenString keyFunc token hp
  simp only [sampleLib, sampleJwtParse] at hp
  cases hl : issued.lookup tokenString with
  | none => simp [hl] at hp
  | some p =>
    obtain ⟨signedWith, t⟩ := p
    simp only [hl] at hp
    cases hk : keyFunc t with
    | error e => simp [hk] at hp
    | ok key =>
      simp only [hk] at hp
      split at hp
      · cases hp
        exact h _ (lookup_mem issued tokenString _ hl)
      · cases hp

theorem sampleIssued_mapClaims :
    ∀ e ∈ sampleIssued, ∃ claims, e.2.2.Claims = .mapClaims claims := by
  intro e he
  simp only [sampleIssued, List.mem_cons, List.mem_singleton, List.mem_nil_iff,
    or_false] at he
  rcases he with rfl | rfl | rfl | rfl | rfl | rfl | rfl <;> exact ⟨_, rfl⟩

/-- Every run of `CheckJWT` either panics or calls `next` with the writer it was given and
the request with nil or a `UserInformation` under `UserKey`. -/
theorem checkJWT_cases (lib : Lib) (m : UnifiedLoginMiddleware) (w : ResponseWriter)
    (r : Request) (hlib : lib.parsesMapClaims) :
    (∃ p, CheckJWT lib m w r = .panic p) ∨
      ∃ v, (v = .nil ∨ ∃ u, v = .userInformation u) ∧
        CheckJWT lib m w r = .callNext w (setUserInContext r v) := by
  by_cases hmal : r.headerGet "Authorization" = "" ∨
      stringsHasPrefix (r.headerGet "Authorization") "Bearer" = false ∨
      (stringsSplit (r.headerGet "Authorization") ' ').length ≠ 2
  · refine Or.inr ⟨.nil, Or.inl rfl, ?_⟩
    by_cases h1 : r.headerGet "Authorization" = ""
    · simp [CheckJWT, h1]
    · by_cases h2 : stringsHasPrefix (r.headerGet "Authorization") "Bearer" = false
      · simp [CheckJWT, h1, h2]
      · have h3 : (stringsSplit (r.headerGet "Authorization") ' ').length ≠ 2 := by
          rcases hmal with h | h | h
          · exact absurd h h1
          · exact absurd h h2
          · exact h
        simp only [Bool.not_eq_false] at h2
        simp [CheckJWT, h1, h2, h3]
  · have hh : extractsToken (r.headerGet "Authorization")
        ((stringsSplit (r.headerGet "Authorization") ' ').getD 1 "") := by
      simp only [not_or, Bool.not_eq_false, not_not] at hmal
      exact ⟨hmal.1, hmal.2.1, hmal.2.2, rfl⟩
    rw [checkJWT_of_extractsToken lib m w r _ hh]
    cases hp : lib.jwtParse ((stringsSplit (r.headerGet "Authorization") ' ').getD 1 "")
        (keyfunc lib m) with
    | error e => exact Or.inr ⟨.nil, Or.inl rfl, rfl⟩
    | ok token =>
      obtain ⟨claims, hc⟩ := hlib _ _ _ hp
      simp only [hc]
      cases hs : lib.getSubject claims with
      | error e => exact Or.inr ⟨.nil, Or.inl rfl, rfl⟩
      | ok userId =>
        cases hsc : scopesOfClaims claims with
        | error p => exact Or.inl ⟨p, rfl⟩
        | ok scopesStr =>
          simp only []
          cases hu : lib.uuidParse userId with
          | none => exact Or.inl ⟨_, rfl⟩
          | some uid => exact Or.inr ⟨_, Or.inr ⟨_, rfl⟩, rfl⟩

/-- C18: `CheckJWT` never returns without calling `next`; and on every request on which it
does not panic it calls `next` once, with the response writer exactly as it received it
and with the request whose context holds nil or a `UserInformation` under `UserKey`. Here
the verifier is one that, like `jwt.Parse`, returns tokens with a claim map. -/
theorem checkJWT_never_short_circuits (lib : Lib) (m : UnifiedLoginMiddleware)
    (w : ResponseWriter) (r : Request) (hlib : lib.parsesMapClaims) :
    (∀ w2, CheckJWT lib m w r ≠ .done w2) ∧
      ((∀ p, CheckJWT lib m w r ≠ .panic p) →
        ∃ v, (v = .nil ∨ ∃ u, v = .userInformation u) ∧
          CheckJWT lib m w r = .callNext w (setUserInContext r v) ∧
          (setUserInContext r v).ctxValue UserKey = v) := by
  rcases checkJWT_cases lib m w r hlib with ⟨p, hp⟩ | ⟨v, hv, hrun⟩
  · refine ⟨fun w2 h => ?_, fun hn => absurd hp (hn p)⟩
    rw [hp] at h
    cases h
  · refine ⟨fun w2 h => ?_, fun _ => ⟨v, hv, hrun, ctxValue_setUserInContext r v⟩⟩
    rw [hrun] at h
    cases h

/-- Witness of C18: the sample library on a request without `Authorization` header. -/
theorem checkJWT_never_short_circuits_witness :
    (sampleLib sampleIssued).parsesMapClaims ∧
      ∀ w2, CheckJWT (sampleLib sampleIssued) (NewMiddleware "test_secret") .fresh ⟨[], []⟩
        ≠ .done w2 :=
  ⟨sampleLib_parsesMapClaims sampleIssued sampleIssued_mapClaims,
   (checkJWT_never_short_circuits (sampleLib sampleIssued) (NewMiddleware "test_secret")
      .fresh ⟨[], []⟩ (sampleLib_parsesMapClaims sampleIssued sampleIssued_mapClaims)).1⟩

/-! ## What the guards take for an identity -/

/-- C19: `MustBeAuthenticated` calls `next` for every value under `UserKey` that is not
nil, whereas both scope guards answer 401 for every value that is not a `UserInformation`;
so for a `*UserInformation` pointer under `UserKey`, and for a value of any other type,
`MustBeAuthenticated` calls `next` while `MustHaveAllScopes` with the empty required list
answers 401. -/
theorem guards_disagree_on_identity (required : List String) (w : ResponseWriter)
    (r : Request) :
    (r.ctxValue UserKey ≠ .nil → MustBeAuthenticated w r = .callNext w r) ∧
      ((∀ u, r.ctxValue UserKey ≠ .userInformation u) →
        MustHaveAnyScope required w r
          = .done (reject w 401 "Token not provided or invalid") ∧
        MustHaveAllScopes required w r
          = .done (reject w 401 "Token not provided or invalid")) ∧
      (∀ (user : CtxVal), (∃ t, user = .userInformationPtr t) ∨ (∃ n, user = .other n) →
        MustBeAuthenticated w (setUserInContext r user)
          = .callNext w (setUserInContext r user) ∧
        MustHaveAllScopes [] w (setUserInContext r user)
          = .done (reject w 401 "Token not provided or invalid")) := by
  have h1 : ∀ q : Request, q.ctxValue UserKey ≠ .nil →
      MustBeAuthenticated w q = .callNext w q := by
    intro q hq
    cases hv : q.ctxValue UserKey with
    | nil => exact absurd hv hq
    | userInformation u => simp [MustBeAuthenticated, hv]
    | userInformationPtr t => simp [MustBeAuthenticated, hv]
    | other n => simp [MustBeAuthenticated, hv]
  have h2 : ∀ (q : Request) (req : List String),
      (∀ u, q.ctxValue UserKey ≠ .userInformation u) →
      MustHaveAnyScope req w q = .done (reject w 401 "Token not provided or invalid") ∧
      MustHaveAllScopes req w q = .done (reject w 401 "Token not provided or invalid") := by
    intro q req hq
    cases hv : q.ctxValue UserKey with
    | userInformation u => exact absurd hv (hq u)
    | nil => simp [MustHaveAnyScope, MustHaveAllScopes, hv]
    | userInformationPtr t => simp [MustHaveAnyScope, MustHaveAllScopes, hv]
    | other n => simp [MustHaveAnyScope, MustHaveAllScopes, hv]
  refine ⟨h1 r, h2 r required, ?_⟩
  intro user huser
  have hval := ctxValue_setUserInContext r user
  constructor
  · apply h1
    rw [hval]
    rcases huser with ⟨t, rfl⟩ | ⟨n, rfl⟩ <;> simp
  · refine (h2 (setUserInContext r user) [] ?_).2
    intro u
    rw [hval]
    rcases huser with ⟨t, rfl⟩ | ⟨n, rfl⟩ <;> simp

/-- Witness of C19: a pointer to an identity with the scope `read` under `UserKey`. -/
theorem guards_disagree_on_identity_witness :
    MustBeAuthenticated .fresh
        (requestWithUser (.userInformationPtr (some ⟨["read"], sampleUserId⟩)))
        = .callNext .fresh
          (requestWithUser (.userInformationPtr (some ⟨["read"], sampleUserId⟩))) ∧
      MustHaveAllScopes [] .fresh
        (requestWithUser (.userInformationPtr (some ⟨["read"], sampleUserId⟩)))
        = .done (reject .fresh 401 "Token not provided or invalid") :=
  (guards_disagree_on_identity [] .fresh ⟨[], []⟩).2.2
    (.userInformationPtr (some ⟨["read"], sampleUserId⟩)) (Or.inl ⟨_, rfl⟩)

/-! ## A `scopes` claim that is not a list -/

/-- C20: when the extractor isolates `tok`, the verifier accepts it with a claim map whose
subject reads as `sub`, `sub` denotes the identifier `uid`, and the `scopes` claim is present
with a value that is not a list, `CheckJWT` calls `next` with the identity `uid` and the
empty scope list under `UserKey`; on that request `MustBeAuthenticated` calls `next`, and
`MustHaveAnyScope` answers 403 for every required list. -/
theorem checkJWT_scopes_not_a_list (lib : Lib) (m : UnifiedLoginMiddleware)
    (w : ResponseWriter) (r : Request) (tok sub : String) (token : Token)
    (claims : List (String × GoVal)) (uid : UUID) (v : GoVal)
    (hh : extractsToken (r.headerGet "Authorization") tok)
    (hp : lib.jwtParse tok (keyfunc lib m) = .ok token)
    (hc : token.Claims = .mapClaims claims)
    (hs : lib.getSubject claims = .ok sub)
    (hu : lib.uuidParse sub = some uid)
    (hsc : claims.lookup "scopes" = some v) (hv : ∀ xs, v ≠ .slice xs) :
    CheckJWT lib m w r =
        .callNext w (setUserInContext r (.userInformation { UserId := uid, Scopes := [] })) ∧
      (∀ w2, MustBeAuthenticated w2
          (setUserInContext r (.userInformation { UserId := uid, Scopes := [] }))
        = .callNext w2
          (setUserInContext r (.userInformation { UserId := uid, Scopes := [] }))) ∧
      (∀ required w2, MustHaveAnyScope required w2
          (setUserInContext r (.userInformation { UserId := uid, Scopes := [] }))
        = .done (reject w2 403 "Forbidden")) := by
  have hscopes : scopesOfClaims claims = .ok [] := by
    cases v with
    | slice xs => exact absurd rfl (hv xs)
    | _ => simp [scopesOfClaims, mapIndex, hsc]
  have hval := ctxValue_setUserInContext r
    (.userInformation { UserId := uid, Scopes := [] })
  refine ⟨?_, ?_, ?_⟩
  · rw [checkJWT_of_extractsToken lib m w r tok hh]
    simp [hp, hc, hs, hu, hscopes]
  · intro w2
    simp [MustBeAuthenticated, hval]
  · intro required w2
    have hloop : anyScopeLoop [] required = false := by
      cases hb : anyScopeLoop [] required with
      | false => rfl
      | true =>
        obtain ⟨s, _, hmem⟩ := (anyScopeLoop_iff [] required).1 hb
        cases hmem
    simp [MustHaveAnyScope, hval, hloop]

/-- Witness of C20: the sample token whose `scopes` claim is the string `read write`. -/
theorem checkJWT_scopes_not_a_list_witness :
    CheckJWT (sampleLib sampleIssuedMore) (NewMiddleware "test_secret") .fresh
        (requestWithAuthorization "Bearer strscopes") =
      .callNext .fresh (setUserInContext (requestWithAuthorization "Bearer strscopes")
        (.userInformation { UserId := sampleUserId, Scopes := [] })) ∧
    MustHaveAnyScope ["read"] .fresh
        (setUserInContext (requestWithAuthorization "Bearer strscopes")
          (.userInformation { UserId := sampleUserId, Scopes := [] }))
      = .done (reject .fresh 403 "Forbidden") :=
  have h := checkJWT_scopes_not_a_list (sampleLib sampleIssuedMore)
    (NewMiddleware "test_secret") .fresh (requestWithAuthorization "Bearer strscopes")
    "strscopes" "951f48de-cf08-ec11-945d-005056a2678b"
    (hs256Token [("sub", .str "951f48de-cf08-ec11-945d-005056a2678b"),
      ("scopes", .str "read write")])
    [("sub", .str "951f48de-cf08-ec11-945d-005056a2678b"), ("scopes", .str "read write")]
    sampleUserId (.str "read write")
    (by decide) (by rfl) (by rfl) (by rfl) (by decide) (by rfl) (by intro xs hx; cases hx)
  ⟨h.1, h.2.2 ["read"] .fresh⟩

end UnifiedLogin
